import Mathlib

set_option maxRecDepth 1000000
set_option maxHeartbeats 4000000

/-!
Verification of the SPA-router asset-serving library (`src/lib.rs`).

The development shallowly embeds the library's functions over explicit data:
bytes are `Nat`s, the embedded asset set is a lookup function
`String → Option EmbeddedFile` mirroring the `RustEmbed::get` trait method,
and HTTP responses are records of status, headers and body.  The external
collaborators (the `rust_embed` content hashing, the `mime_guess` table, the
`base64` encoder, and the axum router's `nest_service`/`fallback_service`
dispatch) are modelled faithfully to their documented behaviour, since the
library's observable responses depend on them.
-/

namespace SpaRouter

/-! ## SHA-256 (models the content hash provided by the `rust_embed` collaborator:
its `metadata.sha256_hash()` is the SHA-256 digest of the file's bytes). -/

/-- Truncation to 32 bits. -/
def w32 (x : Nat) : Nat := x % 2 ^ 32

/-- Combine the low `n` bits of two numbers with a bit-level operation.
Written with structural recursion on the width so that closed instances
reduce inside the kernel. -/
def bitCombine (f : Nat → Nat → Nat) : Nat → Nat → Nat → Nat
  | 0, _, _ => 0
  | n + 1, a, b => f (a % 2) (b % 2) + 2 * bitCombine f n (a / 2) (b / 2)

/-- Bitwise exclusive or on 32-bit words. -/
def xor32 (a b : Nat) : Nat := bitCombine (fun x y => (x + y) % 2) 32 a b

/-- Bitwise and on 32-bit words. -/
def and32 (a b : Nat) : Nat := bitCombine (fun x y => x * y) 32 a b

/-- Bitwise or on 32-bit words. -/
def or32 (a b : Nat) : Nat := bitCombine (fun x y => max x y) 32 a b

/-- Right shift by `k` bits. -/
def shr (k x : Nat) : Nat := x / 2 ^ k

/-- Left shift by `k` bits. -/
def shl (k x : Nat) : Nat := x * 2 ^ k

/-- Right rotation of a 32-bit word. -/
def rotr32 (n x : Nat) : Nat := or32 (shr n x) (shl (32 - n) x)

/-- Bitwise complement of a 32-bit word. -/
def not32 (x : Nat) : Nat := xor32 x (2 ^ 32 - 1)

def ch32 (x y z : Nat) : Nat := xor32 (and32 x y) (and32 (not32 x) z)

def maj32 (x y z : Nat) : Nat :=
  xor32 (xor32 (and32 x y) (and32 x z)) (and32 y z)

def bigSigma0 (x : Nat) : Nat :=
  xor32 (xor32 (rotr32 2 x) (rotr32 13 x)) (rotr32 22 x)

def bigSigma1 (x : Nat) : Nat :=
  xor32 (xor32 (rotr32 6 x) (rotr32 11 x)) (rotr32 25 x)

def smallSigma0 (x : Nat) : Nat :=
  xor32 (xor32 (rotr32 7 x) (rotr32 18 x)) (shr 3 x)

def smallSigma1 (x : Nat) : Nat :=
  xor32 (xor32 (rotr32 17 x) (rotr32 19 x)) (shr 10 x)

/-- The 64 SHA-256 round constants (FIPS 180-4), written in decimal. -/
def sha256K : List Nat :=
  [1116352408, 1899447441, 3049323471, 3921009573, 961987163,
   1508970993, 2453635748, 2870763221, 3624381080, 310598401,
   607225278, 1426881987, 1925078388, 2162078206, 2614888103,
   3248222580, 3835390401, 4022224774, 264347078, 604807628,
   770255983, 1249150122, 1555081692, 1996064986, 2554220882,
   2821834349, 2952996808, 3210313671, 3336571891, 3584528711,
   113926993, 338241895, 666307205, 773529912, 1294757372,
   1396182291, 1695183700, 1986661051, 2177026350, 2456956037,
   2730485921, 2820302411, 3259730800, 3345764771, 3516065817,
   3600352804, 4094571909, 275423344, 430227734, 506948616,
   659060556, 883997877, 958139571, 1322822218, 1537002063,
   1747873779, 1955562222, 2024104815, 2227730452, 2361852424,
   2428436474, 2756734187, 3204031479, 3329325298]

/-- The SHA-256 initial hash value (FIPS 180-4), written in decimal. -/
def sha256H0 : List Nat :=
  [1779033703, 3144134277, 1013904242, 2773480762,
   1359893119, 2600822924, 528734635, 1541459225]

/-- Big-endian byte serialisation of `v` on `n` bytes. -/
def toBytesBE : Nat → Nat → List Nat
  | 0, _ => []
  | n + 1, v => toBytesBE n (v / 256) ++ [v % 256]

/-- SHA-256 padding: append `0x80`, zero bytes, then the 64-bit big-endian
bit length, reaching a multiple of 64 bytes. -/
def sha256Pad (msg : List Nat) : List Nat :=
  let l := msg.length
  let zeros := (119 - l % 64) % 64
  msg ++ [0x80] ++ List.replicate zeros 0 ++ toBytesBE 8 (l * 8)

/-- Read one big-endian 32-bit word from four bytes. -/
def word32At (bs : List Nat) (i : Nat) : Nat :=
  or32 (shl 24 (bs.getD (4 * i) 0)) (or32 (shl 16 (bs.getD (4 * i + 1) 0))
    (or32 (shl 8 (bs.getD (4 * i + 2) 0)) (bs.getD (4 * i + 3) 0)))

/-- The first 16 words of the message schedule of a 64-byte block. -/
def initialSchedule (block : List Nat) : List Nat :=
  (List.range 16).map (word32At block)

/-- Extend the message schedule by `n` further words. -/
def extendSchedule : Nat → List Nat → List Nat
  | 0, ws => ws
  | n + 1, ws =>
      let k := ws.length
      let next := w32 (smallSigma1 (ws.getD (k - 2) 0) + ws.getD (k - 7) 0 +
        smallSigma0 (ws.getD (k - 15) 0) + ws.getD (k - 16) 0)
      extendSchedule n (ws ++ [next])

/-- One round of the SHA-256 compression function. -/
def sha256Round (kw : Nat) (st : List Nat) : List Nat :=
  match st with
  | [a, b, c, d, e, f, g, h] =>
      let t1 := w32 (h + bigSigma1 e + ch32 e f g + kw)
      let t2 := w32 (bigSigma0 a + maj32 a b c)
      [w32 (t1 + t2), a, b, c, w32 (d + t1), e, f, g]
  | st => st

/-- Run the 64 compression rounds on the schedule. -/
def sha256Rounds : List Nat → List Nat → List Nat
  | [], st => st
  | kw :: rest, st => sha256Rounds rest (sha256Round kw st)

/-- Process one 64-byte block, updating the running hash. -/
def sha256Block (h : List Nat) (block : List Nat) : List Nat :=
  let ws := extendSchedule 48 (initialSchedule block)
  let st := sha256Rounds (List.zipWith (fun k w => w32 (k + w)) sha256K ws) h
  List.zipWith (fun a b => w32 (a + b)) h st

/-- Process `n` consecutive 64-byte blocks. -/
def sha256Blocks : Nat → List Nat → List Nat → List Nat
  | 0, h, _ => h
  | n + 1, h, bs => sha256Blocks n (sha256Block h (bs.take 64)) (bs.drop 64)

/-- SHA-256 digest of a byte string, as a list of 32 bytes. -/
def sha256 (msg : List Nat) : List Nat :=
  let padded := sha256Pad msg
  let h := sha256Blocks (padded.length / 64) sha256H0 padded
  h.flatMap (toBytesBE 4)

/-! ## Base64 (models the `base64` crate's `encode`, standard alphabet with
padding, as used for the `ETag` header value). -/

/-- Character of the standard base64 alphabet at index `n % 64`.  For the
byte-derived indices produced below the masking is inert, since they are
already below 64. -/
def b64Index (n : Nat) : Char :=
  if n % 64 < 26 then Char.ofNat (65 + n % 64)
  else if n % 64 < 52 then Char.ofNat (97 + (n % 64 - 26))
  else if n % 64 < 62 then Char.ofNat (48 + (n % 64 - 52))
  else if n % 64 = 62 then '+' else '/'

/-- Standard base64 encoding of a byte list, three bytes at a time, with
trailing `=` padding. -/
def base64Chars : List Nat → List Char
  | [] => []
  | [a] => [b64Index (shr 2 a), b64Index (shl 4 (a % 4)), '=', '=']
  | [a, b] => [b64Index (shr 2 a), b64Index (or32 (shl 4 (a % 4)) (shr 4 b)),
      b64Index (shl 2 (b % 16)), '=']
  | a :: b :: c :: rest =>
      b64Index (shr 2 a) :: b64Index (or32 (shl 4 (a % 4)) (shr 4 b)) ::
      b64Index (or32 (shl 2 (b % 16)) (shr 6 c)) :: b64Index (c % 64) ::
      base64Chars rest

/-- Models `base64::encode`. -/
def base64Encode (bs : List Nat) : String := String.mk (base64Chars bs)

/-! ## HTTP header-value validity (models the `http` crate's check when a
header is set on a response builder: tab and all bytes from `0x20` up,
except `DEL`, are accepted; other control characters make the builder
fail). -/

def isValidHeaderChar (c : Char) : Bool :=
  c == '\t' || (decide (32 ≤ c.toNat) && decide (c.toNat ≠ 127))

def isValidHeaderValue (s : String) : Bool := s.data.all isValidHeaderChar

/-! ## Content-type guessing (models `mime_guess::from_path(..).first_or_octet_stream()`:
the extension of the final path component, lower-cased, is looked up in a
fixed table, defaulting to `application/octet-stream`). -/

/-- Split a character list on a separator character, keeping empty pieces,
like `String.splitOn` on a one-character separator. -/
def splitOnChar (sep : Char) : List Char → List (List Char)
  | [] => [[]]
  | x :: xs =>
      match splitOnChar sep xs with
      | [] => [[]]
      | y :: ys => if x == sep then [] :: y :: ys else (x :: y) :: ys

/-- Final component of a `/`-separated path. -/
def fileName (p : String) : List Char := (splitOnChar '/' p.data).getLastD []

/-- Extension of a path, with the Rust `Path::extension` convention: the part
of the file name after the last `.`; none when there is no `.`, or when the
only `.` is the leading character of the file name. -/
def extOf (p : String) : Option (List Char) :=
  let f := fileName p
  let parts := splitOnChar '.' f
  if parts.length ≤ 1 then none
  else if f.headD ' ' == '.' && parts.length == 2 then none
  else some (parts.getLastD [])

/-- Extension-to-mime table, for the extensions relevant to the fixtures and
scenarios; everything else maps to the generic binary type. -/
def extMime : String → String
  | "html" => "text/html"
  | "htm" => "text/html"
  | "js" => "application/javascript"
  | "mjs" => "application/javascript"
  | "css" => "text/css"
  | "json" => "application/json"
  | "png" => "image/png"
  | "svg" => "image/svg+xml"
  | "ico" => "image/x-icon"
  | "txt" => "text/plain"
  | "wasm" => "application/wasm"
  | _ => "application/octet-stream"

/-- Models `mime_guess::from_path(path).first_or_octet_stream().as_ref()`. -/
def mimeFromPath (p : String) : String :=
  match extOf p with
  | none => "application/octet-stream"
  | some e => extMime (String.mk (e.map Char.toLower))

/-! ## The embedded asset set and HTTP responses. -/

/-- An embedded file as handed out by the `RustEmbed` collaborator: content
bytes and the stored content hash (`metadata.sha256_hash()`). -/
structure EmbeddedFile where
  data : List Nat
  sha256_hash : List Nat
deriving DecidableEq, Repr

/-- The `RustEmbed` trait: a pure lookup from relative path to embedded
file. -/
structure AssetProvider where
  get : String → Option EmbeddedFile

/-- The collaborator contract on the stored hash: `rust_embed` computes
`sha256_hash` as the SHA-256 digest of the file's bytes at build time. -/
def hashWellFormed (A : AssetProvider) : Prop :=
  ∀ p f, A.get p = some f → f.sha256_hash = sha256 f.data

/-- `static INDEX_PATH: &str = "index.html"`. -/
def INDEX_PATH : String := "index.html"

/-- An HTTP response: status, headers in order, body bytes. -/
structure Response where
  status : Nat
  headers : List (String × String)
  body : List Nat
deriving DecidableEq, Repr

/-- Bytes of an ASCII string literal. -/
def asciiBytes (s : String) : List Nat := s.data.map Char.toNat

/-- First header value with the given (lower-case) name. -/
def headerOf (r : Response) (name : String) : Option String :=
  r.headers.lookup name

def etagOf (r : Response) : Option String := headerOf r "etag"

def contentTypeOf (r : Response) : Option String := headerOf r "content-type"

/-- `fn not_found() -> Response`: axum renders `(StatusCode::NOT_FOUND,
"Not found")` as a 404 with a plain-text body. -/
def not_found : Response :=
  { status := 404
  , headers := [("content-type", "text/plain")]
  , body := asciiBytes "Not found" }

/-- The `Response::builder()...body(..)` call in `serve_asset`: it fails
(returns `none`) exactly when a header value is invalid. -/
def buildResponse (ct etag : String) (body : List Nat) : Option Response :=
  if isValidHeaderValue ct && isValidHeaderValue etag then
    some { status := 200
         , headers := [("content-type", ct), ("etag", etag)]
         , body := body }
  else none

/-- `.unwrap_or_else(|_| not_found())` applied to the builder result. -/
def buildOr404 (ct etag : String) (body : List Nat) : Response :=
  (buildResponse ct etag body).getD not_found

/-- `async fn serve_asset<A: RustEmbed>(path: &str) -> Response`, embedded:
look the path up, fall back to `INDEX_PATH`, and on a hit respond 200 with
the guessed content type, the base64 of the stored hash as `ETag`, and the
raw bytes; otherwise `not_found`. -/
def serve_asset (A : AssetProvider) (path : String) : Response :=
  match (A.get path).orElse (fun _ => A.get INDEX_PATH) with
  | some index =>
      buildOr404 (mimeFromPath path) (base64Encode index.sha256_hash) index.data
  | none => not_found

/-- `async fn serve_index<A: RustEmbed>() -> Response`. -/
def serve_index (A : AssetProvider) : Response := serve_asset A INDEX_PATH

/-- `uri.path().trim_start_matches('/')`: drop every leading `/`. -/
def trimLeadingSlashes (s : String) : String :=
  String.mk (s.data.dropWhile (· == '/'))

/-- `async fn assets_handler<A: RustEmbed>(uri: Uri) -> Response`, embedded
over the URI path seen by the nested service. -/
def assets_handler (A : AssetProvider) (uriPath : String) : Response :=
  if uriPath = "/" then serve_index A
  else serve_asset A (trimLeadingSlashes uriPath)

/-- The `From<SpaRouter> for Router` wiring: `assets_handler` is nested at
the mount path and `serve_index` is the fallback service.  The dispatch of
the axum collaborator is modelled per its documentation: a request whose
path equals the mount, or extends it past a `/`, reaches the nested handler
with the prefix stripped; every other request hits the fallback. -/
def spa_router (A : AssetProvider) (mount : String) (reqPath : String) : Response :=
  if mount = "/" then assets_handler A reqPath
  else if reqPath = mount then assets_handler A "/"
  else if (mount.data ++ ['/']).isPrefixOf reqPath.data then
    assets_handler A (String.mk (reqPath.data.drop mount.data.length))
  else serve_index A

/-- One request-response cycle at the state level: the handler reads the
asset set and produces a response; the set it leaves behind is the one it
was given. -/
def handle_request (A : AssetProvider) (path : String) : Response × AssetProvider :=
  (serve_asset A path, A)

/-! ## Fixtures: the asset set of the spec's scenarios, holding exactly
`index.html` and `script.js`, with hashes as `rust_embed` stores them. -/

def indexBody : List Nat := asciiBytes "<h1>Hello, World!</h1>\n"

def scriptBody : List Nat := asciiBytes "console.log('hi')\n"

/-- The hash `rust_embed` stores for `index.html`, as computed at build
time. -/
def indexHash : List Nat :=
  [0x77, 0xdf, 0x23, 0x53, 0x6c, 0xfa, 0xa0, 0x69, 0xd1, 0x61, 0xe8, 0x06,
   0x20, 0x26, 0x5c, 0x91, 0xf3, 0xf7, 0xf2, 0x7c, 0x88, 0x14, 0x63, 0x39,
   0x27, 0x94, 0xdc, 0x88, 0xfc, 0x2e, 0x49, 0xaf]

/-- The hash `rust_embed` stores for `script.js`, as computed at build
time. -/
def scriptHash : List Nat :=
  [0xbe, 0x3a, 0x26, 0x94, 0xe6, 0x0e, 0x8a, 0xf9, 0x88, 0x97, 0x9f, 0x0d,
   0xd5, 0x55, 0x9e, 0x9f, 0x2a, 0xd4, 0x2b, 0x22, 0xa7, 0x05, 0xfe, 0x85,
   0xe4, 0x56, 0x2b, 0xd8, 0x67, 0x63, 0x59, 0x4a]

def indexFile : EmbeddedFile := { data := indexBody, sha256_hash := indexHash }

def scriptFile : EmbeddedFile := { data := scriptBody, sha256_hash := scriptHash }

def fixtureAssets : AssetProvider :=
  { get := fun p =>
      if p = "index.html" then some indexFile
      else if p = "script.js" then some scriptFile
      else none }

/-- An asset set with no files at all (in particular no index document). -/
def emptyAssets : AssetProvider := { get := fun _ => none }

/-- The stored hash of `index.html` is its SHA-256 digest. -/
theorem indexHash_eq : indexHash = sha256 indexBody := by decide

/-- The stored hash of `script.js` is its SHA-256 digest. -/
theorem scriptHash_eq : scriptHash = sha256 scriptBody := by decide

/-- The fixture set satisfies the `rust_embed` hashing contract. -/
theorem fixture_hashWellFormed : hashWellFormed fixtureAssets := by
  intro p f h
  simp only [fixtureAssets] at h
  split at h
  · obtain rfl := Option.some.inj h
    exact indexHash_eq
  · split at h
    · obtain rfl := Option.some.inj h
      exact scriptHash_eq
    · exact absurd h (by simp)

/-! ## Lemmas: the two header values built by `serve_asset` are always valid,
so the response builder never actually fails there. -/

theorem b64Index_valid (n : Nat) : isValidHeaderChar (b64Index n) = true := by
  have h : n % 64 < 64 := Nat.mod_lt _ (by decide)
  unfold b64Index
  generalize n % 64 = m at h ⊢
  interval_cases m <;> decide

theorem base64Chars_all_valid (bs : List Nat) :
    (base64Chars bs).all isValidHeaderChar = true := by
  induction bs using base64Chars.induct <;>
    simp_all [base64Chars, b64Index_valid] <;> decide

theorem base64Encode_valid (bs : List Nat) :
    isValidHeaderValue (base64Encode bs) = true :=
  base64Chars_all_valid bs

theorem extMime_valid (e : String) : isValidHeaderValue (extMime e) = true := by
  unfold extMime
  split <;> decide

theorem mimeFromPath_valid (p : String) :
    isValidHeaderValue (mimeFromPath p) = true := by
  unfold mimeFromPath
  split
  · decide
  · exact extMime_valid _

/-- Inside `serve_asset` the builder always succeeds: the guessed mime and
the base64 ETag are valid header values. -/
theorem buildResponse_ok (p : String) (h d : List Nat) :
    buildResponse (mimeFromPath p) (base64Encode h) d =
      some { status := 200
           , headers := [("content-type", mimeFromPath p),
                         ("etag", base64Encode h)]
           , body := d } := by
  unfold buildResponse
  rw [mimeFromPath_valid, base64Encode_valid]
  rfl

/-- Evaluation of `serve_asset` on a direct hit. -/
theorem serve_asset_of_get (A : AssetProvider) (p : String) (f : EmbeddedFile)
    (h : A.get p = some f) :
    serve_asset A p =
      { status := 200
      , headers := [("content-type", mimeFromPath p),
                    ("etag", base64Encode f.sha256_hash)]
      , body := f.data } := by
  unfold serve_asset
  rw [h]
  show buildOr404 _ _ _ = _
  unfold buildOr404
  rw [buildResponse_ok]
  rfl

/-- Evaluation of `serve_asset` on a miss with the index present. -/
theorem serve_asset_fallback (A : AssetProvider) (p : String) (f : EmbeddedFile)
    (h1 : A.get p = none) (h2 : A.get INDEX_PATH = some f) :
    serve_asset A p =
      { status := 200
      , headers := [("content-type", mimeFromPath p),
                    ("etag", base64Encode f.sha256_hash)]
      , body := f.data } := by
  unfold serve_asset
  rw [h1]
  have horelse : (Option.orElse none fun _ => A.get INDEX_PATH) = some f := by
    simpa [Option.orElse] using h2
  rw [horelse]
  show buildOr404 _ _ _ = _
  unfold buildOr404
  rw [buildResponse_ok]
  rfl

/-- Evaluation of `serve_asset` when both lookups miss. -/
theorem serve_asset_miss (A : AssetProvider) (p : String)
    (h1 : A.get p = none) (h2 : A.get INDEX_PATH = none) :
    serve_asset A p = not_found := by
  unfold serve_asset
  rw [h1]
  have horelse : (Option.orElse none fun _ => A.get INDEX_PATH) = none := by
    simpa [Option.orElse] using h2
  rw [horelse]

/-- The ETag of every 200 response is the base64 of the SHA-256 of the body
actually served, whenever the stored hashes satisfy the collaborator
contract. -/
theorem etagOf_status200 (A : AssetProvider) (p : String)
    (h : hashWellFormed A) (hs : (serve_asset A p).status = 200) :
    etagOf (serve_asset A p) =
      some (base64Encode (sha256 (serve_asset A p).body)) := by
  rcases hA : A.get p with _ | f
  · rcases hI : A.get INDEX_PATH with _ | f
    · rw [serve_asset_miss A p hA hI] at hs
      exact absurd hs (by decide)
    · rw [serve_asset_fallback A p f hA hI]
      show some (base64Encode f.sha256_hash) = some (base64Encode (sha256 f.data))
      rw [h INDEX_PATH f hI]
  · rw [serve_asset_of_get A p f hA]
    show some (base64Encode f.sha256_hash) = some (base64Encode (sha256 f.data))
    rw [h p f hA]

/-- Dropping leading separators leaves a list that does not start with the
separator. -/
theorem head_dropWhile_ne (l : List Char) :
    (l.dropWhile (· == '/')).head? ≠ some '/' := by
  induction l with
  | nil => simp
  | cons x xs ih =>
      rw [List.dropWhile_cons]
      by_cases hx : x = '/'
      · simpa [hx] using ih
      · simp [hx]

/-! ## The claims. -/

/-- C1, counterexample: on the fixture set holding only `index.html` and
`script.js`, requesting `/assets/doesnt_exist` through the router mounted at
`/assets` does not return 404 — it returns the index document's bytes. -/
theorem c1_counterexample :
    (spa_router fixtureAssets "/assets" "/assets/doesnt_exist").status ≠ 404 ∧
    (spa_router fixtureAssets "/assets" "/assets/doesnt_exist").body = indexBody := by
  decide

/-- C1, amended: requesting a path under the assets sub-path whose relative
path is absent from the embedded asset set serves the index document when it
is present: status 200 with the index document's bytes (and its ETag); in
particular `/assets/doesnt_exist` on the fixture set returns 200 with
`index.html`'s content, not 404. -/
theorem c1_assets_fallback :
    (∀ (A : AssetProvider) (p : String) (f : EmbeddedFile),
      A.get (trimLeadingSlashes p) = none → A.get INDEX_PATH = some f →
      p ≠ "/" →
      assets_handler A p =
        { status := 200
        , headers := [("content-type", mimeFromPath (trimLeadingSlashes p)),
                      ("etag", base64Encode f.sha256_hash)]
        , body := f.data }) ∧
    spa_router fixtureAssets "/assets" "/assets/doesnt_exist" =
      { status := 200
      , headers := [("content-type", "application/octet-stream"),
                    ("etag", base64Encode indexHash)]
      , body := indexBody } := by
  constructor
  · intro A p f h1 h2 hp
    unfold assets_handler
    rw [if_neg hp]
    exact serve_asset_fallback A _ f h1 h2
  · decide

/-- C1, witness for the amended theorem at a concrete input. -/
theorem c1_assets_fallback_witness :
    assets_handler fixtureAssets "/doesnt_exist" =
      { status := 200
      , headers := [("content-type", mimeFromPath (trimLeadingSlashes "/doesnt_exist")),
                    ("etag", base64Encode indexFile.sha256_hash)]
      , body := indexFile.data } :=
  c1_assets_fallback.1 fixtureAssets "/doesnt_exist" indexFile
    (by decide) (by decide) (by decide)

/-- C2, counterexample: the fallback response for a missing path does not
carry the index document's content type — for `doesnt_exist` it is the
generic binary type while the index document's content type is
`text/html`. -/
theorem c2_counterexample :
    fixtureAssets.get "doesnt_exist" = none ∧
    contentTypeOf (serve_index fixtureAssets) = some (mimeFromPath INDEX_PATH) ∧
    contentTypeOf (serve_asset fixtureAssets "doesnt_exist") ≠
      some (mimeFromPath INDEX_PATH) := by
  decide

/-- C2, amended: for every requested path absent from the asset set, with
the index document present, resolving returns status 200 with the index
document's bytes and its ETag, regardless of the requested path's shape,
including multi-segment paths; the Content-Type, however, is computed from
the requested path's extension (generic binary type when unknown), not taken
from the index document. -/
theorem c2_spa_fallback (A : AssetProvider) (p : String) (f : EmbeddedFile)
    (h1 : A.get p = none) (h2 : A.get INDEX_PATH = some f) :
    serve_asset A p =
      { status := 200
      , headers := [("content-type", mimeFromPath p),
                    ("etag", base64Encode f.sha256_hash)]
      , body := f.data } :=
  serve_asset_fallback A p f h1 h2

/-- C2, witness at a multi-segment path. -/
theorem c2_spa_fallback_witness :
    serve_asset fixtureAssets "some/random/path" =
      { status := 200
      , headers := [("content-type", mimeFromPath "some/random/path"),
                    ("etag", base64Encode indexFile.sha256_hash)]
      , body := indexFile.data } :=
  c2_spa_fallback fixtureAssets "some/random/path" indexFile (by decide) (by decide)

/-- C3: every path present in the asset set resolves to a 200 whose body is
the asset's raw bytes, whose ETag header is present, and whose Content-Type
is computed from the file extension, defaulting to the generic binary type
when the extension is unknown. -/
theorem c3_present_asset_response (A : AssetProvider) (p : String)
    (f : EmbeddedFile) (h : A.get p = some f) :
    serve_asset A p =
      { status := 200
      , headers := [("content-type", mimeFromPath p),
                    ("etag", base64Encode f.sha256_hash)]
      , body := f.data } ∧
    etagOf (serve_asset A p) = some (base64Encode f.sha256_hash) ∧
    contentTypeOf (serve_asset A p) = some (mimeFromPath p) ∧
    (extOf p = none →
      contentTypeOf (serve_asset A p) = some "application/octet-stream") := by
  have e := serve_asset_of_get A p f h
  refine ⟨e, ?_, ?_, ?_⟩
  · rw [e]; rfl
  · rw [e]; rfl
  · intro hn
    rw [e]
    show some (mimeFromPath p) = some "application/octet-stream"
    unfold mimeFromPath
    rw [hn]

/-- C3, witness at `script.js` in the fixture set. -/
theorem c3_present_asset_response_witness :
    serve_asset fixtureAssets "script.js" =
      { status := 200
      , headers := [("content-type", mimeFromPath "script.js"),
                    ("etag", base64Encode scriptFile.sha256_hash)]
      , body := scriptFile.data } :=
  (c3_present_asset_response fixtureAssets "script.js" scriptFile (by decide)).1

/-- C4: under the collaborator contract on stored hashes, the ETag of every
successfully resolved asset is the base64 encoding of the SHA-256 hash of
the content bytes actually served. -/
theorem c4_etag_sha256 (A : AssetProvider) (p : String)
    (h : hashWellFormed A) (r : Response) (hr : serve_asset A p = r)
    (h200 : r.status = 200) :
    etagOf r = some (base64Encode (sha256 r.body)) := by
  subst hr
  exact etagOf_status200 A p h h200

/-- C4, witness at `script.js` in the fixture set. -/
theorem c4_etag_sha256_witness :
    etagOf (serve_asset fixtureAssets "script.js") =
      some (base64Encode (sha256 (serve_asset fixtureAssets "script.js").body)) :=
  c4_etag_sha256 fixtureAssets "script.js" fixture_hashWellFormed _ rfl (by decide)

/-- C5: the only failure case is a missing asset and it is handled inside
the resolver — on a miss the lookup is retried once against the index name
and succeeds with a 200 when the index is present; the resolution ends in a
404 exactly when both lookups miss, and that 404 is the plain-text
`Not found` response. -/
theorem c5_asset_missing_handling (A : AssetProvider) (p : String) :
    (A.get p = none → A.get INDEX_PATH = none → serve_asset A p = not_found) ∧
    ((serve_asset A p).status = 404 ↔ (A.get p = none ∧ A.get INDEX_PATH = none)) ∧
    (A.get p = none → ∀ f, A.get INDEX_PATH = some f →
      (serve_asset A p).status = 200) ∧
    not_found =
      { status := 404
      , headers := [("content-type", "text/plain")]
      , body := asciiBytes "Not found" } := by
  refine ⟨fun h1 h2 => serve_asset_miss A p h1 h2, ?_, ?_, rfl⟩
  · constructor
    · intro h404
      rcases hA : A.get p with _ | f
      · rcases hI : A.get INDEX_PATH with _ | f
        · exact ⟨rfl, rfl⟩
        · rw [serve_asset_fallback A p f hA hI] at h404
          exact absurd h404 (by decide : ¬(200 : Nat) = 404)
      · rw [serve_asset_of_get A p f hA] at h404
        exact absurd h404 (by decide : ¬(200 : Nat) = 404)
    · rintro ⟨h1, h2⟩
      rw [serve_asset_miss A p h1 h2]
      rfl
  · intro h1 f h2
    rw [serve_asset_fallback A p f h1 h2]

/-- C5, witness: on the empty asset set every resolution is the `Not found`
response. -/
theorem c5_asset_missing_handling_witness :
    serve_asset emptyAssets "anything" = not_found :=
  (c5_asset_missing_handling emptyAssets "anything").1 rfl rfl

/-- C6, counterexample: resolving a path that falls through to the fallback
does not produce exactly the same response as resolving the index path — on
the fixture set the two responses differ (in their Content-Type header). -/
theorem c6_counterexample :
    fixtureAssets.get "doesnt_exist" = none ∧
    serve_asset fixtureAssets "doesnt_exist" ≠ serve_index fixtureAssets := by
  decide

/-- C6, amended: resolving the index path produces the same status, body,
and ETag as resolving any other path that falls through to the SPA
fallback — only the Content-Type, guessed from the requested path, can
differ; and every request hitting the fallback route produces exactly the
response obtained by resolving the index document, regardless of the path
typed. -/
theorem c6_index_equivalence (A : AssetProvider) (p : String)
    (h : A.get p = none) :
    ((serve_asset A p).status = (serve_index A).status ∧
     (serve_asset A p).body = (serve_index A).body ∧
     etagOf (serve_asset A p) = etagOf (serve_index A)) ∧
    (∀ mount req : String, mount ≠ "/" → req ≠ mount →
      (mount.data ++ ['/']).isPrefixOf req.data = false →
      spa_router A mount req = serve_index A) := by
  constructor
  · rcases hI : A.get INDEX_PATH with _ | f
    · rw [show serve_index A = serve_asset A INDEX_PATH from rfl,
        serve_asset_miss A p h hI, serve_asset_miss A INDEX_PATH hI hI]
      exact ⟨rfl, rfl, rfl⟩
    · rw [show serve_index A = serve_asset A INDEX_PATH from rfl,
        serve_asset_fallback A p f h hI, serve_asset_of_get A INDEX_PATH f hI]
      exact ⟨rfl, rfl, rfl⟩
  · intro mount req h1 h2 h3
    unfold spa_router
    rw [if_neg h1, if_neg h2]
    simp [h3]

/-- C6, witness: on the fixture set the fallback for a missing path serves
the index bytes, and a request outside the mount is answered by
`serve_index`. -/
theorem c6_index_equivalence_witness :
    (serve_asset fixtureAssets "doesnt_exist").body =
      (serve_index fixtureAssets).body ∧
    spa_router fixtureAssets "/ui" "/api" = serve_index fixtureAssets :=
  ⟨(c6_index_equivalence fixtureAssets "doesnt_exist" (by decide)).1.2.1,
   (c6_index_equivalence fixtureAssets "doesnt_exist" (by decide)).2 "/ui" "/api"
     (by decide) (by decide) (by decide)⟩

/-- C7: under the collaborator contract on stored hashes, the ETag of a 200
response is a deterministic function of the served content — any two
resolutions serving the same bytes (in particular, repeated resolutions of
the same path over the same unchanged set) carry identical ETags. -/
theorem c7_etag_deterministic (A1 A2 : AssetProvider) (p1 p2 : String)
    (h1 : hashWellFormed A1) (h2 : hashWellFormed A2)
    (hs1 : (serve_asset A1 p1).status = 200)
    (hs2 : (serve_asset A2 p2).status = 200)
    (hb : (serve_asset A1 p1).body = (serve_asset A2 p2).body) :
    etagOf (serve_asset A1 p1) = etagOf (serve_asset A2 p2) := by
  rw [etagOf_status200 A1 p1 h1 hs1, etagOf_status200 A2 p2 h2 hs2, hb]

/-- C7, witness: two resolutions of `script.js` over the fixture set. -/
theorem c7_etag_deterministic_witness :
    etagOf (serve_asset fixtureAssets "script.js") =
      etagOf (serve_asset fixtureAssets "script.js") :=
  c7_etag_deterministic fixtureAssets fixtureAssets "script.js" "script.js"
    fixture_hashWellFormed fixture_hashWellFormed (by decide) (by decide) rfl

/-- C8: resolution is a pure function of the embedded asset set's lookup
function and the requested path — two sets with the same lookup behaviour
give the same response — and a request-response cycle leaves the asset set
exactly as it was. -/
theorem c8_resolution_pure (A1 A2 : AssetProvider) (p : String)
    (h : ∀ q, A1.get q = A2.get q) :
    serve_asset A1 p = serve_asset A2 p ∧
    (handle_request A1 p).2 = A1 ∧
    (handle_request A1 p).1 = serve_asset A1 p := by
  have hA : A1 = A2 := by
    cases A1
    cases A2
    congr 1
    funext q
    exact h q
  subst hA
  exact ⟨rfl, rfl, rfl⟩

/-- C8, witness at the fixture set. -/
theorem c8_resolution_pure_witness :
    serve_asset fixtureAssets "a" = serve_asset fixtureAssets "a" ∧
    (handle_request fixtureAssets "a").2 = fixtureAssets ∧
    (handle_request fixtureAssets "a").1 = serve_asset fixtureAssets "a" :=
  c8_resolution_pure fixtureAssets fixtureAssets "a" (fun _ => rfl)

/-- C9: the assets handler serves the index document for the bare `/` URI
path (never looking up the empty relative path), and for every other path
it strips all leading `/` characters before the lookup: the looked-up
relative path never starts with `/`, and the stripped-off part of the
request path consists of `/` characters only. -/
theorem c9_assets_handler_paths (A : AssetProvider) (p : String) :
    assets_handler A "/" = serve_asset A INDEX_PATH ∧
    (p ≠ "/" →
      assets_handler A p = serve_asset A (trimLeadingSlashes p) ∧
      (trimLeadingSlashes p).data.head? ≠ some '/' ∧
      p.data.takeWhile (· == '/') ++ (trimLeadingSlashes p).data = p.data ∧
      ∀ c ∈ p.data.takeWhile (· == '/'), c = '/') := by
  constructor
  · rfl
  · intro hp
    refine ⟨?_, ?_, ?_, ?_⟩
    · unfold assets_handler
      rw [if_neg hp]
    · exact head_dropWhile_ne p.data
    · show List.takeWhile (· == '/') p.data ++ List.dropWhile (· == '/') p.data = p.data
      exact List.takeWhile_append_dropWhile _ _
    · intro c hc
      simpa using List.mem_takeWhile_imp hc

/-- C9, witness: `/` serves the index; `//script.js` is looked up with the
leading slashes stripped. -/
theorem c9_assets_handler_paths_witness :
    assets_handler fixtureAssets "/" = serve_asset fixtureAssets INDEX_PATH ∧
    assets_handler fixtureAssets "//script.js" =
      serve_asset fixtureAssets (trimLeadingSlashes "//script.js") :=
  ⟨(c9_assets_handler_paths fixtureAssets "x").1,
   ((c9_assets_handler_paths fixtureAssets "//script.js").2 (by decide)).1⟩

/-- C10: `serve_asset` is total — every request yields either the
`Not found` response or a successfully built 200 — and the guard around
response construction returns the `Not found` response whenever the builder
fails. -/
theorem c10_serve_asset_total (A : AssetProvider) (p ct et : String)
    (b : List Nat) :
    (serve_asset A p = not_found ∨ (serve_asset A p).status = 200) ∧
    (buildResponse ct et b = none → buildOr404 ct et b = not_found) := by
  constructor
  · rcases hA : A.get p with _ | f
    · rcases hI : A.get INDEX_PATH with _ | f
      · exact Or.inl (serve_asset_miss A p hA hI)
      · exact Or.inr (by rw [serve_asset_fallback A p f hA hI])
    · exact Or.inr (by rw [serve_asset_of_get A p f hA])
  · intro hb
    unfold buildOr404
    rw [hb]
    rfl

/-- C10, witness: the empty set yields the `Not found` response, and a
builder failure (here: a header value with a control character) is turned
into the `Not found` response. -/
theorem c10_serve_asset_total_witness :
    (serve_asset emptyAssets "x" = not_found ∨
      (serve_asset emptyAssets "x").status = 200) ∧
    buildOr404 "text/plain" "\x00" [] = not_found :=
  ⟨(c10_serve_asset_total emptyAssets "x" "text/plain" "\x00" []).1,
   (c10_serve_asset_total emptyAssets "x" "text/plain" "\x00" []).2 (by decide)⟩

end SpaRouter
